import Mathlib

/-!
Verification development for the digital-twin backend: a shallow
embedding of `src/run_agent.py`, `src/create_database.py` and
`src/api/main.py`, together with theorems settling the frozen claims
about the router, the retrieval strategies, the speech post-processor,
the index lifecycle and the HTTP boundary.

External collaborators (the hosted language model, the vector index,
the text-to-speech engine) are modelled as oracles: a language-model
response is an arbitrary string parameter, and the vector index is a
pair of ranking functions (similarity order and diversity order) over
its stored passages.  Everything the repository's own code does to
those oracle outputs (parsing, filtering, formatting, state updates)
is translated directly from the Python source.
-/

namespace DTwin

/-! ### Python string primitives

The Python code uses `str.strip`, `str.split('\n')`, `str.replace`,
`str.startswith`, `str.lower`, `str.title` and `'sep'.join`.  These are
re-implemented here on `List Char` by structural recursion so that every
definition evaluates inside the kernel. -/

/-- Whitespace as Python's `str.strip` and `\s` see it (ASCII fragment):
space, tab, newline, carriage return, vertical tab, form feed. -/
def isPySpace (c : Char) : Bool :=
  c = ' ' || c = '\t' || c = '\n' || c = '\r' ||
  c = Char.ofNat 11 || c = Char.ofNat 12

/-- Python `str.strip()` on a character list: drop whitespace from both ends. -/
def pyStripL (s : List Char) : List Char :=
  ((((s.dropWhile isPySpace).reverse).dropWhile isPySpace).reverse)

/-- Python `str.strip()`. -/
def pyStrip (s : String) : String :=
  String.mk (pyStripL s.data)

/-- Python `str.split('\n')`: split on every newline, keeping empty pieces
(`''.split('\n') == ['']`). -/
def splitLinesL : List Char → List (List Char)
  | [] => [[]]
  | c :: cs =>
    match splitLinesL cs with
    | [] => [[]]
    | r :: rs => if c = '\n' then [] :: r :: rs else (c :: r) :: rs

/-- Python `s.split('\n')` producing strings. -/
def splitLines (s : String) : List String :=
  (splitLinesL s.data).map String.mk

/-- One fuelled step of Python `str.replace(pat, rep)`: replace every
non-overlapping occurrence, scanning left to right.  The fuel is the
length of the string plus one, which bounds the number of steps because
each step consumes at least one character. -/
def pyReplaceGo (pat rep : List Char) : Nat → List Char → List Char
  | 0, _ => []
  | _, [] => []
  | fuel + 1, c :: cs =>
    if pat.isPrefixOf (c :: cs) && !pat.isEmpty then
      rep ++ pyReplaceGo pat rep fuel ((c :: cs).drop pat.length)
    else
      c :: pyReplaceGo pat rep fuel cs

/-- Python `s.replace(pat, rep)` (used only with non-empty patterns,
as in the source). -/
def pyReplace (s pat rep : String) : String :=
  String.mk (pyReplaceGo pat.data rep.data (s.data.length + 1) s.data)

/-- Python `s.startswith(pre)`. -/
def pyStartsWith (s pre : String) : Bool :=
  pre.data.isPrefixOf s.data

/-- Python `s.lower()` (ASCII fragment). -/
def pyLower (s : String) : String :=
  String.mk (s.data.map Char.toLower)

/-- Python `s.title()` on a character list: upper-case a letter that does
not follow a letter, lower-case a letter that does. -/
def pyTitleL : List Char → Bool → List Char
  | [], _ => []
  | c :: cs, prevAlpha =>
    (if c.isAlpha then (if prevAlpha then c.toLower else c.toUpper) else c)
      :: pyTitleL cs c.isAlpha

/-- Python `s.title()`. -/
def pyTitle (s : String) : String :=
  String.mk (pyTitleL s.data false)

/-- Python `sep.join(parts)`. -/
def joinSep (sep : String) : List String → String
  | [] => ""
  | [x] => x
  | x :: y :: xs => x ++ sep ++ joinSep sep (y :: xs)

/-- Substring test: `needle` occurs contiguously inside `hay`. -/
def containsSub (hay needle : List Char) : Bool :=
  (List.range (hay.length + 1)).any (fun i => needle.isPrefixOf (hay.drop i))

/-- Substring test on strings. -/
def containsStr (hay needle : String) : Bool :=
  containsSub hay.data needle.data

/-! ### Data model: documents and the vector store

A stored passage (a LangChain `Document`) carries `page_content` and a
string-keyed `metadata` mapping, here an association list. -/

structure Document where
  page_content : String
  metadata : List (String × String)
deriving DecidableEq

/-- The source tag of a passage as `retrieve_general` reads it:
`doc.metadata.get("source", "unknown")`. -/
def docSource (d : Document) : String :=
  (d.metadata.lookup "source").getD "unknown"

/-- Modelled from the spec: the vector index (Chroma) is an external
collaborator, out of scope per the spec.  It is modelled by its two
query-time capabilities: `ranked q` is the store's full contents in
similarity order for query `q`, and `mmrRanked q fetch_k` is the
diversity-aware (maximal-marginal-relevance) ordering of a `fetch_k`
candidate pool, which may fail with an exception message. -/
structure VectorStore where
  ranked : String → List Document
  mmrRanked : String → Nat → Except String (List Document)

/-- Whether a passage satisfies a `filter={key: value}` argument
(Chroma equality filter); `none` means unfiltered. -/
def docMatches (filter : Option (String × String)) (d : Document) : Bool :=
  match filter with
  | none => true
  | some kv => d.metadata.lookup kv.1 = some kv.2

/-- Modelled from the spec: `similarity_search(query, k, filter)` of the
external index returns the top `k` stored passages matching the filter,
in similarity order. -/
def similarity_search (vs : VectorStore) (query : String) (k : Nat)
    (filter : Option (String × String)) : List Document :=
  ((vs.ranked query).filter (docMatches filter)).take k

/-- Modelled from the spec: `max_marginal_relevance_search(query, k,
fetch_k, filter)` of the external index returns the top `k` matching
passages of the diversity-aware ordering, or propagates the failure of
the diversity-aware path. -/
def max_marginal_relevance_search (vs : VectorStore) (query : String)
    (k fetch_k : Nat) (filter : Option (String × String)) :
    Except String (List Document) :=
  (vs.mmrRanked query fetch_k).map (fun ds => (ds.filter (docMatches filter)).take k)

/-! ### Conversation state (`AgentState` in `run_agent.py`) -/

/-- A LangChain message: human, system or assistant turn. -/
inductive Message where
  | human (content : String)
  | system (content : String)
  | ai (content : String)
deriving DecidableEq

/-- The text carried by a message. -/
def Message.content : Message → String
  | .human c => c
  | .system c => c
  | .ai c => c

/-- `AgentState`: the accumulating message list, the canonicalized query,
the index handle and the scratch raw answer. -/
structure AgentState where
  messages : List Message
  english_query : String
  vector_store : VectorStore
  raw_answer : String

/-! ### Query router (`router_node`, lines 55-105)

The language-model classification response is an oracle string; the
code's parsing of it is embedded exactly: strip, split on newlines, and
fold over the lines with the `if`/`elif` of lines 92-96. -/

/-- One iteration of the parsing loop of `router_node` (lines 92-96):
a line beginning `TRANSLATED_QUERY:` overwrites the query, otherwise a
line beginning `ROUTE:` overwrites the (lower-cased) route. -/
def stepLine (acc : String × String) (line : String) : String × String :=
  if pyStartsWith line "TRANSLATED_QUERY:" then
    (pyStrip (pyReplace line "TRANSLATED_QUERY:" ""), acc.2)
  else if pyStartsWith line "ROUTE:" then
    (acc.1, pyLower (pyStrip (pyReplace line "ROUTE:" "")))
  else acc

/-- The lines of the stripped classification response. -/
def routerLines (content : String) : List String :=
  splitLines (pyStrip content)

/-- Parsing of the classification response (lines 89-96): start from the
original question and the `general` route and fold the labelled lines. -/
def parseRouterResponse (content userQuery : String) : String × String :=
  (routerLines content).foldl stepLine (userQuery, "general")

/-- `router_node` (lines 55-105): the classification response is the
oracle parameter; the node stores the translated query and appends the
`[Route: ... | Query: ...]` marker message.  (The language-model call
itself, lines 57-86, is the external request producing `llmResponse`;
the pipeline always runs this node on a state seeded with the user's
message, so `messages` is non-empty here.) -/
def router_node (llmResponse : String) (st : AgentState) : AgentState :=
  let user_query := ((st.messages.getLast?).map Message.content).getD ""
  let parsed := parseRouterResponse llmResponse user_query
  { st with
    english_query := parsed.1,
    messages := st.messages ++
      [Message.system ("[Route: " ++ parsed.2 ++ " | Query: " ++ parsed.1 ++ "]")] }

/-! ### Retrieval strategies (lines 117-211) -/

/-- `retrieve_linkedin` (lines 117-130): similarity search with `k=3`
scoped to `source == "linkedin"`, appending the LinkedIn context marker. -/
def retrieve_linkedin (st : AgentState) : AgentState :=
  let results := similarity_search st.vector_store st.english_query 3
    (some ("source", "linkedin"))
  let context := joinSep "\n\n" (results.map Document.page_content)
  { st with messages := st.messages ++
      [Message.system ("[LinkedIn Context]\n" ++ context)] }

/-- `retrieve_github` (lines 133-146): similarity search with `k=8`
scoped to `source == "github"`, appending the GitHub context marker. -/
def retrieve_github (st : AgentState) : AgentState :=
  let results := similarity_search st.vector_store st.english_query 8
    (some ("source", "github"))
  let context := joinSep "\n\n" (results.map Document.page_content)
  { st with messages := st.messages ++
      [Message.system ("[GitHub Projects Context]\n" ++ context)] }

/-- The result list of `retrieve_medium` (lines 156-169): the
diversity-aware search with `k=8`, `fetch_k=20` and the medium filter,
falling back on any exception to the plain similarity search with the
same `k=8` and the same filter. -/
def mediumResults (vs : VectorStore) (query : String) : List Document :=
  match max_marginal_relevance_search vs query 8 20 (some ("source", "medium")) with
  | .ok results => results
  | .error _ => similarity_search vs query 8 (some ("source", "medium"))

/-- The marker message appended by `retrieve_medium` (lines 173-185):
the article context, or the explicit `No articles found.` notice when
the search is empty. -/
def mediumContextMessage (results : List Document) : Message :=
  if results.isEmpty then
    Message.system "[Medium Articles Context]\nNo articles found."
  else
    Message.system ("[Medium Articles Context]\n" ++
      joinSep "\n\n" (results.map Document.page_content))

/-- `retrieve_medium` (lines 149-187). -/
def retrieve_medium (st : AgentState) : AgentState :=
  { st with messages := st.messages ++
      [mediumContextMessage (mediumResults st.vector_store st.english_query)] }

/-- The `by_source` grouping loop of `retrieve_general` (lines 196-201):
a Python dict keeps keys in insertion order, embedded as an association
list of source tag to contents. -/
def addToGroup (groups : List (String × List String)) (src content : String) :
    List (String × List String) :=
  match groups with
  | [] => [(src, [content])]
  | g :: rest =>
    if g.1 = src then (g.1, g.2 ++ [content]) :: rest
    else g :: addToGroup rest src content

/-- Group retrieved passages by `metadata.get("source", "unknown")`,
preserving retrieval order inside each group and first-appearance order
of the groups. -/
def groupBySource (results : List Document) : List (String × List String) :=
  results.foldl (fun g d => addToGroup g (docSource d) d.page_content) []

/-- `retrieve_general` (lines 190-211): unscoped similarity search with
`k=8`, grouped by source with a `[<Source> Context]` heading per group. -/
def retrieve_general (st : AgentState) : AgentState :=
  let results := similarity_search st.vector_store st.english_query 8 none
  let by_source := groupBySource results
  let contexts := by_source.map
    (fun g => "[" ++ pyTitle g.1 ++ " Context]\n" ++ joinSep "\n\n" g.2)
  { st with messages := st.messages ++
      [Message.system (joinSep "\n\n" contexts)] }

/-- `answer_node` (lines 214-261): the generation request (prompt
construction and the language-model call, lines 217-255) is external;
its response is the oracle parameter.  The node stores the raw answer
and appends it as an assistant message. -/
def answer_node (llmResponse : String) (st : AgentState) : AgentState :=
  { st with
    raw_answer := llmResponse,
    messages := st.messages ++ [Message.ai llmResponse] }

/-! ### Speech post-processor: deterministic cleanup (lines 295-316)

The five `re.sub` markup substitutions and the four anchored preamble
patterns are embedded with Python's regex semantics for these concrete
patterns: leftmost match, greedy quantifiers with backtracking, lazy
`.*?`, `.` not matching a newline, and `IGNORECASE` on the preambles. -/

/-- The asterisk character. -/
def star : Char := Char.ofNat 42

/-- The backtick character. -/
def backtick : Char := Char.ofNat 96

/-- The underscore character. -/
def underscore : Char := Char.ofNat 95

/-- The apostrophe character. -/
def apostrophe : Char := Char.ofNat 39

/-- Fuelled scanner for `re.sub(d^n([^d]+)d^n, \1, s)` where `delim` is
the delimiter repeated `n` times and `bad` the delimited character class
complement: at each position, a match needs the delimiter, a non-empty
maximal run of non-`bad` characters and the delimiter again; on a match
the run is emitted and scanning resumes after the match, otherwise one
character is emitted.  (Greedy `[^d]+` admits no backtracking here
because the closing delimiter starts with `bad`.)  Fuel is the input
length plus one: every step consumes at least one character. -/
def subDelimGo (delim : List Char) (bad : Char) : Nat → List Char → List Char
  | 0, _ => []
  | _, [] => []
  | fuel + 1, c :: cs =>
    let s := c :: cs
    if delim.isPrefixOf s then
      let rest := s.drop delim.length
      let run := rest.takeWhile (fun x => x ≠ bad)
      let after := rest.drop run.length
      if !run.isEmpty && delim.isPrefixOf after then
        run ++ subDelimGo delim bad fuel (after.drop delim.length)
      else
        c :: subDelimGo delim bad fuel cs
    else
      c :: subDelimGo delim bad fuel cs

/-- `re.sub` of a delimiter-markup pattern (`**bold**`, `*italic*`,
backtick code, `_underline_`). -/
def subDelim (n : Nat) (bad : Char) (s : List Char) : List Char :=
  subDelimGo (List.replicate n bad) bad (s.length + 1) s

/-- Fuelled scanner for `re.sub(r'#{1,6}\s+', '', s)` (line 304): an
unanchored run of one to six hash marks followed by whitespace is
deleted (a run longer than six cannot match at its start, so its first
characters survive and the match begins six characters from the run's
end, exactly as the backtracking engine behaves). -/
def subHashGo : Nat → List Char → List Char
  | 0, _ => []
  | _, [] => []
  | fuel + 1, c :: cs =>
    let s := c :: cs
    let hashes := s.takeWhile (fun x => x = '#')
    let rest := s.drop hashes.length
    let ws := rest.takeWhile isPySpace
    if 1 ≤ hashes.length && hashes.length ≤ 6 && !ws.isEmpty then
      subHashGo fuel (rest.drop ws.length)
    else
      c :: subHashGo fuel cs

/-- `re.sub(r'#{1,6}\s+', '', s)`. -/
def subHash (s : List Char) : List Char :=
  subHashGo (s.length + 1) s

/-- Quantifier of one pattern item: exactly one, optional (greedy), one
or more (greedy), zero or more (greedy), zero or more (lazy). -/
inductive Quant where
  | one
  | opt
  | plusGreedy
  | starGreedy
  | starLazy
deriving DecidableEq

/-- A regex item: a character class with a quantifier. -/
structure PatItem where
  test : Char → Bool
  quant : Quant

/-- The consumption counts an item may take on input `s`, in the order a
backtracking engine tries them (greedy: longest first; lazy: shortest
first). -/
def candCounts (it : PatItem) (s : List Char) : List Nat :=
  let run := (s.takeWhile it.test).length
  match it.quant with
  | .one => if 1 ≤ run then [1] else []
  | .opt => if 1 ≤ run then [1, 0] else [0]
  | .plusGreedy => ((List.range run).map (fun n => n + 1)).reverse
  | .starGreedy => (List.range (run + 1)).reverse
  | .starLazy => List.range (run + 1)

/-- Backtracking matcher for a sequence of items anchored at the front of
`s`: returns the remaining suffix of the first (per quantifier
preference) successful decomposition. -/
def matchItems : List PatItem → List Char → Option (List Char)
  | [], s => some s
  | it :: rest, s =>
    (candCounts it s).findSome? (fun n => matchItems rest (s.drop n))

/-- `re.sub(pat, '', s)` for a `^`-anchored pattern without `MULTILINE`:
delete the match at position zero, if any. -/
def stripAnchored (items : List PatItem) (s : List Char) : List Char :=
  match matchItems items s with
  | some rest => rest
  | none => s

/-- A case-insensitive literal, one item per character. -/
def ciLit (w : String) : List PatItem :=
  w.data.map (fun c => ⟨fun x => x.toLower = c.toLower, Quant.one⟩)

/-- `[!,.]?`. -/
def optPunct : PatItem :=
  ⟨fun c => c = '!' || c = ',' || c = '.', Quant.opt⟩

/-- `\s+`. -/
def spacePlus : PatItem :=
  ⟨isPySpace, Quant.plusGreedy⟩

/-- `['s\s]+.*?:\s*` (case-insensitive), the common tail of the two
`Here...` preamble patterns: apostrophe-or-s-or-space run, lazy anything
up to a colon on the same line, then trailing whitespace. -/
def hereTail : List PatItem :=
  [⟨fun c => c = apostrophe || c.toLower = 's' || isPySpace c, Quant.plusGreedy⟩,
   ⟨fun c => c ≠ '\n', Quant.starLazy⟩,
   ⟨fun c => c = ':', Quant.one⟩,
   ⟨isPySpace, Quant.starGreedy⟩]

/-- Preamble pattern 1 (line 308): Sure, optional punctuation, spaces,
Here, then the common tail. -/
def surePattern : List PatItem :=
  ciLit "Sure" ++ [optPunct, spacePlus] ++ ciLit "Here" ++ hereTail

/-- Preamble pattern 2 (line 309): Here then the common tail. -/
def herePattern : List PatItem :=
  ciLit "Here" ++ hereTail

/-- Preamble pattern 3 (line 310): Okay, optional punctuation, spaces. -/
def okayPattern : List PatItem :=
  ciLit "Okay" ++ [optPunct, spacePlus]

/-- Preamble pattern 4 (line 311): Alright, optional punctuation, spaces. -/
def alrightPattern : List PatItem :=
  ciLit "Alright" ++ [optPunct, spacePlus]

/-- The deterministic cleanup pass of `speech_optimization_node` (lines
295-316): the five markup substitutions, the four preamble strips in
order, then `strip()`. -/
def cleanupSpeech (content : String) : String :=
  let s := content.data
  let s := subDelim 2 star s
  let s := subDelim 1 star s
  let s := subDelim 1 backtick s
  let s := subDelim 1 underscore s
  let s := subHash s
  let s := stripAnchored surePattern s
  let s := stripAnchored herePattern s
  let s := stripAnchored okayPattern s
  let s := stripAnchored alrightPattern s
  String.mk (pyStripL s)

/-- `speech_optimization_node` (lines 264-321): the rewrite request is
external and its response is the oracle parameter; the deterministic
cleanup is applied and the result replaces the last message in place
(`state["messages"][-1] = AIMessage(...)`; Python raises on an empty
list, a state the pipeline never produces since the router has always
appended first). -/
def speech_optimization_node (llmResponse : String) (st : AgentState) : AgentState :=
  { st with messages := st.messages.dropLast ++ [Message.ai (cleanupSpeech llmResponse)] }

/-! ### Index lifecycle (`create_database.py` and `load_vector_store`)

The filesystem is modelled by the one directory both functions inspect:
`chroma_db`, either absent or a list of directory entries. -/

/-- The `chroma_db` persistence directory: `none` when absent, otherwise
its entries. -/
structure FileSystem where
  chroma_db : Option (List String)
deriving DecidableEq

/-- The existence check both files perform:
`persist_dir.exists() and any(persist_dir.iterdir())`. -/
def vectorStoreExists (fs : FileSystem) : Bool :=
  match fs.chroma_db with
  | some entries => !entries.isEmpty
  | none => false

/-- The observable outcome of `create_vector_store`: the resulting
filesystem, whether `load_documents()` ran, and whether the index write
(`Chroma.from_texts`) ran. -/
structure BuildOutcome where
  fs : FileSystem
  loadedDocuments : Bool
  wroteIndex : Bool
deriving DecidableEq

/-- `create_vector_store` (`create_database.py`, lines 73-122): absent
the force flag, an existing non-empty collection short-circuits before
any document load or index write; otherwise the documents are loaded,
embedded and persisted.  `buildEntries` is the oracle for the files the
external index writes into the directory (it always writes at least its
database file, so a successful build leaves the directory non-empty). -/
def create_vector_store (force_recreate : Bool) (buildEntries : List String)
    (fs : FileSystem) : BuildOutcome :=
  if !force_recreate && vectorStoreExists fs then
    ⟨fs, false, false⟩
  else
    ⟨⟨some buildEntries⟩, true, true⟩

/-- A handle on the opened collection, as `Chroma(persist_directory=...,
collection_name=...)` is constructed in `load_vector_store`. -/
structure ChromaHandle where
  persist_directory : String
  collection_name : String
deriving DecidableEq

/-- `load_vector_store` (`run_agent.py`, lines 28-52): raise when the
directory is absent or empty, otherwise open the fixed `digital_twin`
collection. -/
def load_vector_store (fs : FileSystem) : Except String ChromaHandle :=
  if !vectorStoreExists fs then
    Except.error
      "Vector store not found at chroma_db\nPlease run: python -m src.create_database"
  else
    Except.ok ⟨"chroma_db", "digital_twin"⟩

/-! ### HTTP boundary (`api/main.py`) -/

/-- The request body of `POST /api/ask`. -/
structure AskRequest where
  question : String
  user_id : String
deriving DecidableEq

/-- The endpoint's observable outcome: the success payload
`(text, audio-hex)` or an `HTTPException(status, detail)`. -/
inductive ApiResult where
  | ok (text : String) (audio : String)
  | httpError (status : Nat) (detail : String)
deriving DecidableEq

/-- Two-digit lower-case hex of one byte, as `bytes.hex()` renders it. -/
def hexByte (b : Nat) : String :=
  let digit := fun n => (Nat.digitChar n)
  String.mk [digit (b / 16 % 16), digit (b % 16)]

/-- `bytes.hex()`: the audio bytes as a hex string. -/
def hexEncode (bytes : List Nat) : String :=
  String.join (bytes.map hexByte)

/-- The keyword parameters `DigitalTwin.ask` accepts besides `self`
(`run_agent.py`, line 381: `def ask(self, question: str) -> str`). -/
def askKeywordParams : List String := ["question"]

/-- Python call semantics for the keyword arguments of a call: a keyword
argument not in the callee's parameter list raises `TypeError` (the
Python message quotes the argument name). -/
def pyKwCall (accepted : List String) (kwargs : List String)
    (run : Unit → String) : Except String String :=
  match kwargs.find? (fun k => !accepted.contains k) with
  | some k => Except.error
      ("DigitalTwin.ask() got an unexpected keyword argument " ++ k)
  | none => Except.ok (run ())

/-- `ask_question` (`api/main.py`, lines 68-93): the pipeline's answer
and the synthesized audio are oracles (`twinAnswer`, `ttsAudio`); the
handler calls `digital_twin.ask(request.question, user_id=request.user_id)`,
then the TTS, and converts any exception into a 500 response whose
detail is the exception's message. -/
def ask_question (twinAnswer : String → String) (ttsAudio : String → List Nat)
    (req : AskRequest) : ApiResult :=
  match pyKwCall askKeywordParams ["user_id"] (fun _ => twinAnswer req.question) with
  | .error msg => ApiResult.httpError 500 msg
  | .ok answer => ApiResult.ok answer (hexEncode (ttsAudio answer))

/-! ## Theorems -/

/-! ### C1: router extraction and fallback -/

/-- The last line of `lines` satisfying `p` (the parsing loop overwrites
earlier labelled lines with later ones). -/
def lastMatching (p : String → Bool) (lines : List String) : Option String :=
  lines.reverse.find? p

theorem foldl_stepLine_eq (lines : List String) (a b : String) :
    lines.foldl stepLine (a, b) =
      (((lastMatching (fun l => pyStartsWith l "TRANSLATED_QUERY:") lines).map
          (fun l => pyStrip (pyReplace l "TRANSLATED_QUERY:" ""))).getD a,
       ((lastMatching (fun l =>
            !pyStartsWith l "TRANSLATED_QUERY:" && pyStartsWith l "ROUTE:") lines).map
          (fun l => pyLower (pyStrip (pyReplace l "ROUTE:" "")))).getD b) := by
  induction lines generalizing a b with
  | nil => simp [lastMatching]
  | cons l ls ih =>
    have hsplit : ∀ p : String → Bool, lastMatching p (l :: ls) =
        (lastMatching p ls).or (if p l then some l else none) := by
      intro p
      simp [lastMatching, List.find?_append]
    cases hT : pyStartsWith l "TRANSLATED_QUERY:" with
    | true =>
      simp only [List.foldl_cons, stepLine, hT, if_true]
      rw [ih, hsplit, hsplit]
      simp only [hT, Bool.not_true, Bool.false_and, if_false, Option.or_none]
      cases h : lastMatching (fun l => pyStartsWith l "TRANSLATED_QUERY:") ls <;>
        simp [h]
    | false =>
      cases hR : pyStartsWith l "ROUTE:" with
      | true =>
        simp only [List.foldl_cons, stepLine, hT, hR, if_true, if_false,
          Bool.false_eq_true]
        rw [ih, hsplit, hsplit]
        simp only [hT, hR, Bool.not_false, Bool.true_and, if_true, Option.or_none]
        cases h : lastMatching (fun l =>
            !pyStartsWith l "TRANSLATED_QUERY:" && pyStartsWith l "ROUTE:") ls <;>
          simp [h]
      | false =>
        simp only [List.foldl_cons, stepLine, hT, hR, if_false, Bool.false_eq_true]
        rw [ih, hsplit, hsplit]
        simp [hT, hR]

theorem startsT_not_startsR (l : String)
    (h : pyStartsWith l "TRANSLATED_QUERY:" = true) :
    pyStartsWith l "ROUTE:" = false := by
  rw [pyStartsWith, List.isPrefixOf_iff_prefix] at h
  rw [pyStartsWith, Bool.eq_false_iff]
  intro hc
  rw [List.isPrefixOf_iff_prefix] at hc
  obtain ⟨t1, h1⟩ := h
  obtain ⟨t2, h2⟩ := hc
  have e1 : ("TRANSLATED_QUERY:").data = 'T' :: ("RANSLATED_QUERY:").data := rfl
  have e2 : ("ROUTE:").data = 'R' :: ("OUTE:").data := rfl
  rw [e1, List.cons_append] at h1
  rw [e2, List.cons_append] at h2
  rw [← h1] at h2
  injection h2 with hch _
  exact absurd hch (by decide)

theorem routePred_eq :
    (fun l => !pyStartsWith l "TRANSLATED_QUERY:" && pyStartsWith l "ROUTE:") =
    (fun l => pyStartsWith l "ROUTE:") := by
  funext l
  cases hT : pyStartsWith l "TRANSLATED_QUERY:" with
  | false => simp
  | true => simp [startsT_not_startsR l hT]

/-- C1: the router takes the query from the (last) line beginning
`TRANSLATED_QUERY:` and the lower-cased route from the (last) line
beginning `ROUTE:`; when such a line is absent the query falls back to
the original question and the route to `general`, producing a normal
result; in particular the response `"I am not sure"` yields
`(original_question, "general")`. -/
theorem router_label_extraction (content q : String) :
    parseRouterResponse content q =
      (((lastMatching (fun l => pyStartsWith l "TRANSLATED_QUERY:")
            (routerLines content)).map
          (fun l => pyStrip (pyReplace l "TRANSLATED_QUERY:" ""))).getD q,
       ((lastMatching (fun l => pyStartsWith l "ROUTE:")
            (routerLines content)).map
          (fun l => pyLower (pyStrip (pyReplace l "ROUTE:" "")))).getD "general") ∧
    parseRouterResponse "I am not sure" q = (q, "general") ∧
    ((∀ l ∈ routerLines content, pyStartsWith l "TRANSLATED_QUERY:" = false) →
      (parseRouterResponse content q).1 = q) ∧
    ((∀ l ∈ routerLines content, pyStartsWith l "ROUTE:" = false) →
      (parseRouterResponse content q).2 = "general") := by
  have hchar : ∀ c q' : String, parseRouterResponse c q' =
      (((lastMatching (fun l => pyStartsWith l "TRANSLATED_QUERY:")
            (routerLines c)).map
          (fun l => pyStrip (pyReplace l "TRANSLATED_QUERY:" ""))).getD q',
       ((lastMatching (fun l => pyStartsWith l "ROUTE:")
            (routerLines c)).map
          (fun l => pyLower (pyStrip (pyReplace l "ROUTE:" "")))).getD "general") := by
    intro c q'
    rw [parseRouterResponse, foldl_stepLine_eq, routePred_eq]
  refine ⟨hchar content q, ?_, ?_, ?_⟩
  · rw [hchar]
    have h1 : lastMatching (fun l => pyStartsWith l "TRANSLATED_QUERY:")
        (routerLines "I am not sure") = none := by decide
    have h2 : lastMatching (fun l => pyStartsWith l "ROUTE:")
        (routerLines "I am not sure") = none := by decide
    rw [h1, h2]
    rfl
  · intro habs
    rw [hchar]
    have : lastMatching (fun l => pyStartsWith l "TRANSLATED_QUERY:")
        (routerLines content) = none := by
      rw [lastMatching, List.find?_eq_none]
      intro x hx
      simp [habs x (List.mem_reverse.mp hx)]
    rw [this]
    rfl
  · intro habs
    rw [hchar]
    have : lastMatching (fun l => pyStartsWith l "ROUTE:")
        (routerLines content) = none := by
      rw [lastMatching, List.find?_eq_none]
      intro x hx
      simp [habs x (List.mem_reverse.mp hx)]
    rw [this]
    rfl

/-- Concrete passages used to evaluate the strategies: one per source
tag and one without a source tag. -/
def dLinked : Document := ⟨"Profile text", [("source", "linkedin")]⟩

/-- A concrete github-tagged passage. -/
def dGit : Document := ⟨"Project text", [("source", "github")]⟩

/-- A concrete medium-tagged passage. -/
def dMed : Document := ⟨"Article text", [("source", "medium")]⟩

/-- A concrete passage whose metadata lacks a source tag. -/
def dNoTag : Document := ⟨"Untagged text", []⟩

/-- A concrete store content. -/
def sampleDocs : List Document := [dLinked, dGit, dMed, dNoTag]

/-- A store whose diversity-aware search always fails. -/
def mmrFailStore : VectorStore :=
  ⟨fun _ => sampleDocs, fun _ _ => Except.error "mmr failed"⟩

/-- A store whose searches succeed. -/
def okStore : VectorStore := ⟨fun _ => sampleDocs, fun _ _ => Except.ok sampleDocs⟩

/-- A store with no passages at all. -/
def emptyStore : VectorStore := ⟨fun _ => [], fun _ _ => Except.ok []⟩

/-- A fresh conversation state over a given store, as `DigitalTwin.ask`
seeds it. -/
def mkState (vs : VectorStore) : AgentState :=
  ⟨[Message.human "Tell me about Yauheniya"], "query", vs, ""⟩

/-- Witness for C1 at concrete inputs: a well-formed response is parsed
into its labelled values, and a label-free response falls back. -/
theorem router_label_extraction_witness :
    parseRouterResponse "TRANSLATED_QUERY: Where did she study?\nROUTE: LinkedIn"
      "orig" = ("Where did she study?", "linkedin") ∧
    (∀ l ∈ routerLines "I am not sure", pyStartsWith l "TRANSLATED_QUERY:" = false) ∧
    (parseRouterResponse "I am not sure" "orig").1 = "orig" ∧
    parseRouterResponse "I am not sure" "orig" = ("orig", "general") := by
  refine ⟨?_, by decide, ?_, ?_⟩
  · rw [(router_label_extraction
      "TRANSLATED_QUERY: Where did she study?\nROUTE: LinkedIn" "orig").1]
    decide
  · exact (router_label_extraction "I am not sure" "orig").2.2.1 (by decide)
  · exact (router_label_extraction "I am not sure" "orig").2.1

/-! ### C2: articles strategy falls back on a diversity-search failure -/

/-- C2: whenever the diversity-aware search raises, the articles
strategy's results are exactly those of the plain similarity search with
the identical `k = 8` and the identical `source = medium` filter, and
the strategy still returns a normal state with its context marker
appended — the original exception is not propagated. -/
theorem mmr_failure_falls_back (st : AgentState) (e : String)
    (h : st.vector_store.mmrRanked st.english_query 20 = Except.error e) :
    mediumResults st.vector_store st.english_query =
      similarity_search st.vector_store st.english_query 8
        (some ("source", "medium")) ∧
    (retrieve_medium st).messages = st.messages ++
      [mediumContextMessage (similarity_search st.vector_store st.english_query 8
        (some ("source", "medium")))] := by
  have hres : mediumResults st.vector_store st.english_query =
      similarity_search st.vector_store st.english_query 8
        (some ("source", "medium")) := by
    rw [mediumResults, max_marginal_relevance_search, h]
    rfl
  exact ⟨hres, by rw [retrieve_medium, hres]⟩

/-- Witness for C2: a store whose diversity-aware search fails still
yields the similarity results and the normal marker message. -/
theorem mmr_failure_falls_back_witness :
    mmrFailStore.mmrRanked "query" 20 = Except.error "mmr failed" ∧
    mediumResults mmrFailStore "query" = [dMed] ∧
    (retrieve_medium (mkState mmrFailStore)).messages =
      (mkState mmrFailStore).messages ++
        [Message.system "[Medium Articles Context]\nArticle text"] := by
  have h := mmr_failure_falls_back (mkState mmrFailStore) "mmr failed" rfl
  exact ⟨rfl, h.1.trans (by decide), h.2.trans (by decide)⟩

/-! ### C3: markers on zero results -/

/-- C3 is contradicted by the code: with an empty index the profile
strategy's scoped search returns zero results and the strategy does
append a marker message, but that marker is the bare header with an
empty context body — it contains no "no results" notice of any kind
(no `No`, `no`, `results` or `found` anywhere in it). -/
theorem zero_results_no_notice_counterexample :
    similarity_search emptyStore (mkState emptyStore).english_query 3
      (some ("source", "linkedin")) = [] ∧
    (retrieve_linkedin (mkState emptyStore)).messages =
      (mkState emptyStore).messages ++ [Message.system "[LinkedIn Context]\n"] ∧
    containsStr "[LinkedIn Context]\n" "No" = false ∧
    containsStr "[LinkedIn Context]\n" "no" = false ∧
    containsStr "[LinkedIn Context]\n" "results" = false ∧
    containsStr "[LinkedIn Context]\n" "found" = false := by
  decide

/-- C3 amended: whenever a scoped strategy's own search returns zero
results (independently of the other scopes), that strategy still appends
its marker message, but only the articles strategy's marker carries an
explicit notice (`No articles found.`); the profile and projects
strategies append their bare header with an empty context body. -/
theorem zero_results_markers (st : AgentState) :
    (similarity_search st.vector_store st.english_query 3
        (some ("source", "linkedin")) = [] →
      (retrieve_linkedin st).messages =
        st.messages ++ [Message.system "[LinkedIn Context]\n"]) ∧
    (similarity_search st.vector_store st.english_query 8
        (some ("source", "github")) = [] →
      (retrieve_github st).messages =
        st.messages ++ [Message.system "[GitHub Projects Context]\n"]) ∧
    (mediumResults st.vector_store st.english_query = [] →
      (retrieve_medium st).messages =
        st.messages ++
          [Message.system "[Medium Articles Context]\nNo articles found."]) := by
  refine ⟨?_, ?_, ?_⟩
  · intro hl
    simp only [retrieve_linkedin, hl]
    rfl
  · intro hg
    simp only [retrieve_github, hg]
    rfl
  · intro hm
    simp only [retrieve_medium, hm]
    rfl

/-- A store holding only the medium-tagged passage: the profile scope is
empty there while the article scope is not. -/
def mediumOnlyStore : VectorStore :=
  ⟨fun _ => [dMed], fun _ _ => Except.ok [dMed]⟩

/-- Witness for C3's amended statement: at a medium-only store the
profile search alone is empty and its bare marker is appended while the
article scope is non-empty, and at the empty store the articles strategy
appends its explicit notice. -/
theorem zero_results_markers_witness :
    similarity_search mediumOnlyStore "query" 3 (some ("source", "linkedin")) = [] ∧
    mediumResults mediumOnlyStore "query" ≠ [] ∧
    (retrieve_linkedin (mkState mediumOnlyStore)).messages =
      (mkState mediumOnlyStore).messages ++
        [Message.system "[LinkedIn Context]\n"] ∧
    (retrieve_medium (mkState emptyStore)).messages =
      (mkState emptyStore).messages ++
        [Message.system "[Medium Articles Context]\nNo articles found."] := by
  refine ⟨by decide, by decide, ?_, ?_⟩
  · exact (zero_results_markers (mkState mediumOnlyStore)).1 (by decide)
  · exact (zero_results_markers (mkState emptyStore)).2.2 (by decide)

/-! ### C6: the deterministic speech cleanup -/

/-- C6: the deterministic regular-expression cleanup removes literal
bold, italic, code and underscore markup and heading markers, and
strips the leading preamble phrasings case-insensitively; in particular
the two inputs named by the claim produce the stated outputs. -/
theorem speech_cleanup_examples :
    cleanupSpeech "This is **bold** and *italic* and `code`" =
      "This is bold and italic and code" ∧
    cleanupSpeech "Sure! Here's the answer: Yauheniya studied at the university." =
      "Yauheniya studied at the university." ∧
    pyStartsWith
      (cleanupSpeech "Sure! Here's the answer: Yauheniya studied at the university.")
      "Yauheniya studied" = true ∧
    cleanupSpeech "## Heading\nsome _things_ here" = "Heading\nsome things here" ∧
    cleanupSpeech "HERE IS THE LIST: first item" = "first item" ∧
    cleanupSpeech "Okay, the answer" = "the answer" ∧
    cleanupSpeech "Alright, the answer" = "the answer" := by
  decide

/-! ### C7: the message list is append-only except for the final stage -/

/-- C7: every pipeline stage except speech optimization only appends one
message to the conversation state's message list, leaving all prior
entries unchanged; the speech-optimization stage replaces exactly the
last entry in place: the length is unchanged and all earlier entries
are unchanged. -/
theorem pipeline_append_only (st : AgentState) (resp : String) :
    (∃ m, (router_node resp st).messages = st.messages ++ [m]) ∧
    (∃ m, (retrieve_linkedin st).messages = st.messages ++ [m]) ∧
    (∃ m, (retrieve_github st).messages = st.messages ++ [m]) ∧
    (∃ m, (retrieve_medium st).messages = st.messages ++ [m]) ∧
    (∃ m, (retrieve_general st).messages = st.messages ++ [m]) ∧
    (∃ m, (answer_node resp st).messages = st.messages ++ [m]) ∧
    (st.messages ≠ [] →
      (speech_optimization_node resp st).messages.length = st.messages.length ∧
      (speech_optimization_node resp st).messages.dropLast = st.messages.dropLast ∧
      (speech_optimization_node resp st).messages =
        st.messages.dropLast ++ [Message.ai (cleanupSpeech resp)]) := by
  refine ⟨⟨_, rfl⟩, ⟨_, rfl⟩, ⟨_, rfl⟩, ⟨_, rfl⟩, ⟨_, rfl⟩, ⟨_, rfl⟩, ?_⟩
  intro hne
  have hpos : 0 < st.messages.length := List.length_pos.mpr hne
  refine ⟨?_, ?_, rfl⟩
  · show (st.messages.dropLast ++ [Message.ai (cleanupSpeech resp)]).length =
      st.messages.length
    simp only [List.length_append, List.length_dropLast, List.length_cons,
      List.length_nil]
    omega
  · show (st.messages.dropLast ++ [Message.ai (cleanupSpeech resp)]).dropLast =
      st.messages.dropLast
    simp

/-- Witness for C7 at a concrete state: the router appends one message
and the speech stage replaces the last entry of a two-message state,
keeping the length and the first entry. -/
theorem pipeline_append_only_witness :
    (mkState okStore).messages ≠ [] ∧
    (speech_optimization_node "**answer**" (mkState okStore)).messages.length =
      (mkState okStore).messages.length ∧
    (speech_optimization_node "**answer**" (mkState okStore)).messages =
      (mkState okStore).messages.dropLast ++ [Message.ai (cleanupSpeech "**answer**")] ∧
    (router_node "ROUTE: github" (mkState okStore)).messages =
      (mkState okStore).messages ++
        [Message.system "[Route: github | Query: Tell me about Yauheniya]"] := by
  have h := (pipeline_append_only (mkState okStore) "**answer**").2.2.2.2.2.2
    (by decide)
  refine ⟨by decide, h.1, h.2.2, by decide⟩

/-! ### Grouping lemmas for the general strategy (C5, C10) -/

/-- Association lookup in the grouped context: the contents stored under
a source tag (empty when the tag is absent). -/
def groupLookup : List (String × List String) → String → List String
  | [], _ => []
  | e :: rest, s => if e.1 = s then e.2 else groupLookup rest s

theorem groupLookup_addToGroup_self (g : List (String × List String))
    (t c : String) :
    groupLookup (addToGroup g t c) t = groupLookup g t ++ [c] := by
  induction g with
  | nil => simp [addToGroup, groupLookup]
  | cons a rest ih =>
    by_cases h : a.1 = t
    · simp [addToGroup, groupLookup, h]
    · simp [addToGroup, groupLookup, h, ih]

theorem groupLookup_addToGroup_ne (g : List (String × List String))
    (t c s : String) (hne : s ≠ t) :
    groupLookup (addToGroup g t c) s = groupLookup g s := by
  induction g with
  | nil => simp [addToGroup, groupLookup, Ne.symm hne]
  | cons a rest ih =>
    by_cases h : a.1 = t
    · simp [addToGroup, groupLookup, h, Ne.symm hne]
    · simp [addToGroup, groupLookup, h, ih]

theorem keys_addToGroup (g : List (String × List String)) (t c : String) :
    (addToGroup g t c).map Prod.fst =
      if t ∈ g.map Prod.fst then g.map Prod.fst else g.map Prod.fst ++ [t] := by
  induction g with
  | nil => simp [addToGroup]
  | cons a rest ih =>
    by_cases h : a.1 = t
    · simp [addToGroup, h]
    · simp only [addToGroup, if_neg h, List.map_cons, ih]
      have hta : ¬ t = a.1 := fun hh => h hh.symm
      have hm2 : (t ∈ a.1 :: rest.map Prod.fst) ↔ t ∈ rest.map Prod.fst := by
        constructor
        · intro hmem
          rcases List.mem_cons.mp hmem with h1 | h1
          · exact absurd h1 hta
          · exact h1
        · exact List.mem_cons_of_mem _
      by_cases hm : t ∈ rest.map Prod.fst
      · rw [if_pos hm, if_pos (hm2.mpr hm)]
      · rw [if_neg hm, if_neg (fun hh => hm (hm2.mp hh)), List.cons_append]

theorem groupBySource_append (rs : List Document) (d : Document) :
    groupBySource (rs ++ [d]) =
      addToGroup (groupBySource rs) (docSource d) d.page_content := by
  simp [groupBySource, List.foldl_append]

theorem groupLookup_groupBySource (rs : List Document) (s : String) :
    groupLookup (groupBySource rs) s =
      (rs.filter (fun d => docSource d = s)).map Document.page_content := by
  induction rs using List.reverseRecOn with
  | nil => simp [groupBySource, groupLookup]
  | append_singleton rs d ih =>
    rw [groupBySource_append]
    by_cases h : docSource d = s
    · subst h
      rw [groupLookup_addToGroup_self, ih, List.filter_append]
      simp
    · rw [groupLookup_addToGroup_ne _ _ _ _ (fun hh => h hh.symm), ih,
        List.filter_append]
      simp [h]

theorem keys_groupBySource_nodup (rs : List Document) :
    ((groupBySource rs).map Prod.fst).Nodup := by
  induction rs using List.reverseRecOn with
  | nil => simp [groupBySource]
  | append_singleton rs d ih =>
    rw [groupBySource_append, keys_addToGroup]
    by_cases hm : docSource d ∈ (groupBySource rs).map Prod.fst
    · rw [if_pos hm]
      exact ih
    · rw [if_neg hm, List.nodup_append]
      refine ⟨ih, List.nodup_singleton _, ?_⟩
      intro a ha hb
      rcases List.mem_singleton.mp hb with rfl
      exact hm ha

theorem mem_keys_groupBySource (rs : List Document) (s : String) :
    s ∈ (groupBySource rs).map Prod.fst ↔ s ∈ rs.map docSource := by
  induction rs using List.reverseRecOn with
  | nil => simp [groupBySource]
  | append_singleton rs d ih =>
    rw [groupBySource_append, keys_addToGroup]
    simp only [List.map_append, List.map_cons, List.map_nil, List.mem_append,
      List.mem_cons, List.not_mem_nil, or_false]
    by_cases hm : docSource d ∈ (groupBySource rs).map Prod.fst
    · rw [if_pos hm]
      constructor
      · intro h1
        exact Or.inl (ih.mp h1)
      · rintro (h1 | h1)
        · exact ih.mpr h1
        · rw [h1]
          exact hm
    · rw [if_neg hm]
      constructor
      · intro h1
        rcases List.mem_append.mp h1 with h2 | h2
        · exact Or.inl (ih.mp h2)
        · exact Or.inr (List.mem_singleton.mp h2)
      · rintro (h1 | h1)
        · exact List.mem_append.mpr (Or.inl (ih.mpr h1))
        · exact List.mem_append.mpr (Or.inr (by simp [h1]))

theorem groupLookup_of_mem (g : List (String × List String))
    (hnd : (g.map Prod.fst).Nodup) (s : String) (cs : List String)
    (hm : (s, cs) ∈ g) : groupLookup g s = cs := by
  induction g with
  | nil => cases hm
  | cons a rest ih =>
    rw [List.map_cons, List.nodup_cons] at hnd
    rcases List.mem_cons.mp hm with h | h
    · rw [← h]
      simp [groupLookup]
    · have hs : s ∈ rest.map Prod.fst := List.mem_map.mpr ⟨(s, cs), h, rfl⟩
      have ha : ¬ a.1 = s := fun hh => hnd.1 (hh ▸ hs)
      simp [groupLookup, ha, ih hnd.2 h]

theorem mem_of_mem_keys (g : List (String × List String)) (s : String)
    (hm : s ∈ g.map Prod.fst) : (s, groupLookup g s) ∈ g := by
  induction g with
  | nil => simp at hm
  | cons a rest ih =>
    by_cases h : a.1 = s
    · refine List.mem_cons.mpr (Or.inl ?_)
      rw [groupLookup, if_pos h, ← h]
    · rw [List.map_cons, List.mem_cons] at hm
      rcases hm with h1 | h1
      · exact absurd h1.symm h
      · rw [groupLookup, if_neg h]
        exact List.mem_cons.mpr (Or.inr (ih h1))

/-- Passages surfaced by a source-filtered search carry exactly that
source tag. -/
theorem mem_filtered_take (l : List Document) (n : Nat) (key val : String)
    (d : Document) (hd : d ∈ (l.filter (docMatches (some (key, val)))).take n) :
    d.metadata.lookup key = some val := by
  have h1 := List.take_subset _ _ hd
  have h2 := (List.mem_filter.mp h1).2
  simpa [docMatches] using h2

/-! ### C5: strategies surface only their scope; the general one groups -/

/-- C5: the profile strategy surfaces only passages tagged `linkedin`
(at most its top 3), the projects strategy only passages tagged `github`
(at most its top 8), the articles strategy only passages tagged `medium`
(through either of its search paths), and the general strategy runs the
unscoped top-8 search, appends the retrieved passages grouped by source
tag with a source-labeled heading preceding each group, and surfaces
every retrieved passage (whatever its scope) in its group. -/
theorem strategies_respect_scopes (st : AgentState) :
    (∀ d ∈ similarity_search st.vector_store st.english_query 3
        (some ("source", "linkedin")),
      d.metadata.lookup "source" = some "linkedin") ∧
    (similarity_search st.vector_store st.english_query 3
        (some ("source", "linkedin"))).length ≤ 3 ∧
    (retrieve_linkedin st).messages = st.messages ++
      [Message.system ("[LinkedIn Context]\n" ++ joinSep "\n\n"
        ((similarity_search st.vector_store st.english_query 3
          (some ("source", "linkedin"))).map Document.page_content))] ∧
    (∀ d ∈ similarity_search st.vector_store st.english_query 8
        (some ("source", "github")),
      d.metadata.lookup "source" = some "github") ∧
    (similarity_search st.vector_store st.english_query 8
        (some ("source", "github"))).length ≤ 8 ∧
    (retrieve_github st).messages = st.messages ++
      [Message.system ("[GitHub Projects Context]\n" ++ joinSep "\n\n"
        ((similarity_search st.vector_store st.english_query 8
          (some ("source", "github"))).map Document.page_content))] ∧
    (∀ d ∈ mediumResults st.vector_store st.english_query,
      d.metadata.lookup "source" = some "medium") ∧
    similarity_search st.vector_store st.english_query 8 none =
      (st.vector_store.ranked st.english_query).take 8 ∧
    (retrieve_general st).messages = st.messages ++
      [Message.system (joinSep "\n\n"
        ((groupBySource (similarity_search st.vector_store st.english_query 8
            none)).map
          (fun g => "[" ++ pyTitle g.1 ++ " Context]\n" ++ joinSep "\n\n" g.2)))] ∧
    (∀ d ∈ similarity_search st.vector_store st.english_query 8 none,
      ∃ cs, (docSource d, cs) ∈
          groupBySource (similarity_search st.vector_store st.english_query 8
            none) ∧
        d.page_content ∈ cs) := by
  refine ⟨?_, ?_, rfl, ?_, ?_, rfl, ?_, ?_, rfl, ?_⟩
  · intro d hd
    exact mem_filtered_take _ _ _ _ _ hd
  · exact List.length_take_le _ _
  · intro d hd
    exact mem_filtered_take _ _ _ _ _ hd
  · exact List.length_take_le _ _
  · intro d hd
    rw [mediumResults] at hd
    cases hmm : st.vector_store.mmrRanked st.english_query 20 with
    | error e =>
      rw [max_marginal_relevance_search, hmm] at hd
      exact mem_filtered_take _ _ _ _ _ hd
    | ok ds =>
      rw [max_marginal_relevance_search, hmm] at hd
      exact mem_filtered_take _ _ _ _ _ hd
  · rw [similarity_search]
    congr 1
    exact List.filter_eq_self.mpr (fun d _ => rfl)
  · intro d hd
    refine ⟨groupLookup (groupBySource (similarity_search st.vector_store
      st.english_query 8 none)) (docSource d), ?_, ?_⟩
    · exact mem_of_mem_keys _ _
        ((mem_keys_groupBySource _ _).mpr (List.mem_map.mpr ⟨d, hd, rfl⟩))
    · rw [groupLookup_groupBySource]
      exact List.mem_map.mpr ⟨d, List.mem_filter.mpr ⟨hd, by simp⟩, rfl⟩

/-- Witness for C5 at a concrete store holding one passage per scope. -/
theorem strategies_respect_scopes_witness :
    dLinked.metadata.lookup "source" = some "linkedin" ∧
    (retrieve_linkedin (mkState okStore)).messages =
      (mkState okStore).messages ++
        [Message.system "[LinkedIn Context]\nProfile text"] ∧
    (retrieve_github (mkState okStore)).messages =
      (mkState okStore).messages ++
        [Message.system "[GitHub Projects Context]\nProject text"] ∧
    (retrieve_general (mkState okStore)).messages =
      (mkState okStore).messages ++
        [Message.system ("[Linkedin Context]\nProfile text\n\n" ++
          "[Github Context]\nProject text\n\n" ++
          "[Medium Context]\nArticle text\n\n" ++
          "[Unknown Context]\nUntagged text")] := by
  have h := strategies_respect_scopes (mkState okStore)
  exact ⟨h.1 dLinked (by decide), h.2.2.1.trans (by decide),
    h.2.2.2.2.2.1.trans (by decide), h.2.2.2.2.2.2.2.2.1.trans (by decide)⟩

/-! ### C10: the general grouping is a faithful partition -/

/-- C10: in the general strategy every retrieved passage appears exactly
once in the grouping under the heading key derived from its source tag
(each group's list is exactly the retrieval-ordered contents of the
passages carrying that tag), the group keys are distinct, a passage
whose metadata lacks a source tag is grouped under `unknown` rather than
dropped, and every retrieved passage's content is present in its group. -/
theorem general_grouping_faithful (st : AgentState) :
    (∀ s cs, (s, cs) ∈ groupBySource
        (similarity_search st.vector_store st.english_query 8 none) →
      cs = ((similarity_search st.vector_store st.english_query 8 none).filter
        (fun d => docSource d = s)).map Document.page_content) ∧
    ((groupBySource (similarity_search st.vector_store st.english_query 8
        none)).map Prod.fst).Nodup ∧
    (∀ d ∈ similarity_search st.vector_store st.english_query 8 none,
      d.metadata.lookup "source" = none → docSource d = "unknown") ∧
    (∀ d ∈ similarity_search st.vector_store st.english_query 8 none,
      d.page_content ∈ groupLookup
        (groupBySource (similarity_search st.vector_store st.english_query 8
          none)) (docSource d)) := by
  refine ⟨?_, keys_groupBySource_nodup _, ?_, ?_⟩
  · intro s cs hm
    rw [← groupLookup_of_mem _ (keys_groupBySource_nodup _) s cs hm,
      groupLookup_groupBySource]
  · intro d _ hnone
    rw [docSource, hnone]
    rfl
  · intro d hd
    rw [groupLookup_groupBySource]
    exact List.mem_map.mpr ⟨d, List.mem_filter.mpr ⟨hd, by simp⟩, rfl⟩

/-- Witness for C10 at the concrete store: the untagged passage lands in
the `unknown` group, whose contents are exactly its content. -/
theorem general_grouping_faithful_witness :
    (("unknown", ["Untagged text"]) ∈
      groupBySource (similarity_search okStore "query" 8 none)) ∧
    ["Untagged text"] =
      ((similarity_search okStore "query" 8 none).filter
        (fun d => docSource d = "unknown")).map Document.page_content ∧
    docSource dNoTag = "unknown" := by
  have h := general_grouping_faithful (mkState okStore)
  exact ⟨by decide, h.1 "unknown" ["Untagged text"] (by decide),
    h.2.2.1 dNoTag (by decide) (by decide)⟩

/-! ### C8: the administrative build is idempotent without the force flag -/

/-- C8: after any first invocation (whose index write always leaves a
non-empty directory), a second invocation without the force flag loads
no documents, writes no index, and leaves the persisted collection
exactly as the first invocation left it. -/
theorem rebuild_idempotent (fs : FileSystem) (f1 : Bool) (e1 e2 : List String)
    (h : e1 ≠ []) :
    create_vector_store false e2 (create_vector_store f1 e1 fs).fs =
      ⟨(create_vector_store f1 e1 fs).fs, false, false⟩ := by
  have hex : vectorStoreExists (create_vector_store f1 e1 fs).fs = true := by
    rw [create_vector_store]
    split
    · next hc =>
      exact (Bool.and_eq_true _ _ |>.mp hc).2
    · simpa [vectorStoreExists] using h
  rw [create_vector_store, if_pos (by simp [hex])]

/-- Witness for C8: building over an absent directory and then invoking
again without force keeps the first build's collection untouched. -/
theorem rebuild_idempotent_witness :
    (["chroma.sqlite3"] : List String) ≠ [] ∧
    create_vector_store false ["other.sqlite3"]
        (create_vector_store false ["chroma.sqlite3"] ⟨none⟩).fs =
      ⟨⟨some ["chroma.sqlite3"]⟩, false, false⟩ := by
  refine ⟨by decide, ?_⟩
  exact (rebuild_idempotent ⟨none⟩ false ["chroma.sqlite3"] ["other.sqlite3"]
    (by decide)).trans (by decide)

/-! ### C9: loading the store fails exactly on an absent or empty directory -/

/-- C9: loading the vector store at query time raises exactly when the
persisted directory is absent or empty; otherwise it succeeds and
returns a handle on the fixed `digital_twin` collection in `chroma_db`. -/
theorem load_vector_store_spec (fs : FileSystem) :
    ((∃ e, load_vector_store fs = Except.error e) ↔
      (fs.chroma_db = none ∨ fs.chroma_db = some [])) ∧
    (∀ h, load_vector_store fs = Except.ok h →
      h = ⟨"chroma_db", "digital_twin"⟩) := by
  rcases fs with ⟨chroma_db⟩
  rcases chroma_db with _ | ⟨_ | ⟨x, xs⟩⟩
  · refine ⟨⟨fun _ => Or.inl rfl, fun _ => ⟨_, rfl⟩⟩, ?_⟩
    intro h hc
    cases hc
  · refine ⟨⟨fun _ => Or.inr rfl, fun _ => ⟨_, rfl⟩⟩, ?_⟩
    intro h hc
    cases hc
  · refine ⟨⟨?_, ?_⟩, ?_⟩
    · rintro ⟨e, he⟩
      rw [show load_vector_store ⟨some (x :: xs)⟩ =
        Except.ok ⟨"chroma_db", "digital_twin"⟩ from rfl] at he
      cases he
    · rintro (hc | hc) <;> cases hc
    · intro h hc
      rw [show load_vector_store ⟨some (x :: xs)⟩ =
        Except.ok ⟨"chroma_db", "digital_twin"⟩ from rfl] at hc
      cases hc
      rfl

/-- Witness for C9: an absent directory yields the error, and a
non-empty one yields the fixed collection handle. -/
theorem load_vector_store_spec_witness :
    load_vector_store ⟨none⟩ = Except.error
      "Vector store not found at chroma_db\nPlease run: python -m src.create_database" ∧
    load_vector_store ⟨some ["chroma.sqlite3"]⟩ =
      Except.ok ⟨"chroma_db", "digital_twin"⟩ ∧
    (⟨"chroma_db", "digital_twin"⟩ : ChromaHandle).collection_name =
      "digital_twin" := by
  refine ⟨rfl, rfl, ?_⟩
  have h := (load_vector_store_spec ⟨some ["chroma.sqlite3"]⟩).2
    ⟨"chroma_db", "digital_twin"⟩ rfl
  rw [h]

/-! ### C4: the ask endpoint -/

/-- C4 is contradicted by the code: the handler calls
`digital_twin.ask(request.question, user_id=request.user_id)` but
`DigitalTwin.ask` accepts no `user_id` parameter, so every request —
whatever its question, and whatever answer and audio the services would
produce — raises `TypeError` and is converted by the handler's exception
branch into the generic 500 response carrying that exception's message;
the `(text, audio-hex)` payload the claim promises is never returned. -/
theorem ask_endpoint_always_500 (twinAnswer : String → String)
    (ttsAudio : String → List Nat) (req : AskRequest) :
    ask_question twinAnswer ttsAudio req =
      ApiResult.httpError 500
        "DigitalTwin.ask() got an unexpected keyword argument user_id" := rfl

end DTwin
